import Mathlib

/-!
# Verification of the v3d-web landmark-processing core

Shallow embedding of `src/worker/pose-processing.ts` (classes `Poses` and
`FilteredVectorLandmark`).  Coordinates and timestamps are modelled as real
numbers (the JavaScript source computes with IEEE doubles); detector
confidences and filter parameters, which the source only stores and compares
against constant thresholds, are modelled as rationals so that the gate
conditions stay decidable.

The helper module `src/helper/utils.ts` (the One-Euro low-pass filter, the
Euclidean high-pass filter, the landmark/vector conversions and the two
length constants) is not part of the provided sources; those definitions are
modelled from the specification and are marked as such in their doc comments.
The `Vector3` operations come from the external `@babylonjs/core` dependency
and are embedded with their documented semantics.
-/

open Classical

noncomputable section

/-- A 3-component vector, mirroring `@babylonjs/core` `Vector3`. -/
structure Vec3 where
  x : ℝ
  y : ℝ
  z : ℝ

/-- `Vector3.Zero()`. -/
def Vec3.zero : Vec3 := ⟨0, 0, 0⟩

/-- `Vector3.One()`. -/
def Vec3.one : Vec3 := ⟨1, 1, 1⟩

/-- `Vector3.add`. -/
def Vec3.add (a b : Vec3) : Vec3 := ⟨a.x + b.x, a.y + b.y, a.z + b.z⟩

/-- `Vector3.subtract`. -/
def Vec3.subtract (a b : Vec3) : Vec3 := ⟨a.x - b.x, a.y - b.y, a.z - b.z⟩

/-- `Vector3.scale`. -/
def Vec3.scale (a : Vec3) (s : ℝ) : Vec3 := ⟨a.x * s, a.y * s, a.z * s⟩

/-- `Vector3.cross` (Babylon computes `Vector3.Cross(this, other)`). -/
def Vec3.cross (a b : Vec3) : Vec3 :=
  ⟨a.y * b.z - a.z * b.y, a.z * b.x - a.x * b.z, a.x * b.y - a.y * b.x⟩

/-- `Vector3.length()`: the Euclidean magnitude. -/
def Vec3.length (v : Vec3) : ℝ := Real.sqrt (v.x ^ 2 + v.y ^ 2 + v.z ^ 2)

/-- `Vector3.normalize()`.  Babylon's `normalizeFromLength` returns the
vector unchanged when its length is `0` (avoiding a division by zero) or `1`,
and otherwise scales by the reciprocal length. -/
def Vec3.normalize (v : Vec3) : Vec3 :=
  if v.length = 0 ∨ v.length = 1 then v else v.scale (1 / v.length)

/-- A MediaPipe `NormalizedLandmark`: a position plus an optional
detector confidence (`visibility`). -/
structure NormalizedLandmark where
  x : ℝ
  y : ℝ
  z : ℝ
  visibility : Option ℚ

/-- Modelled from the spec: `normalizedLandmarkToVector` from the missing
`src/helper/utils.ts`, converting a landmark to its position vector. -/
def normalizedLandmarkToVector (l : NormalizedLandmark) : Vec3 := ⟨l.x, l.y, l.z⟩

/-- Modelled from the spec: `vectorToNormalizedLandmark` from the missing
`src/helper/utils.ts`; the produced plain landmark carries no visibility. -/
def vectorToNormalizedLandmark (v : Vec3) : NormalizedLandmark := ⟨v.x, v.y, v.z, none⟩

/-- Modelled from the spec: `POSE_LANDMARK_LENGTH` from the missing
`src/helper/utils.ts` — the fixed length of the body-pose landmark set
(MediaPipe's 33-point pose topology). -/
def POSE_LANDMARK_LENGTH : ℕ := 33

/-- Modelled from the spec: `FACE_LANDMARK_LENGTH` from the missing
`src/helper/utils.ts` — the larger fixed length of the dense face-mesh set
(MediaPipe's 478-point mesh, irises included). -/
def FACE_LANDMARK_LENGTH : ℕ := 478

/-- Index constants from the external `@mediapipe/holistic` `POSE_LANDMARKS`
map, as used by the source. -/
def POSE_LANDMARKS.NOSE : ℕ := 0

def POSE_LANDMARKS.LEFT_EYE_INNER : ℕ := 1

def POSE_LANDMARKS.LEFT_EYE_OUTER : ℕ := 3

def POSE_LANDMARKS.RIGHT_EYE_INNER : ℕ := 4

def POSE_LANDMARKS.RIGHT_EYE_OUTER : ℕ := 6

/-- `POSE_LANDMARKS.LEFT_RIGHT` — mis-named mouth-left index in the
MediaPipe JS code, as noted in the source. -/
def POSE_LANDMARKS.LEFT_RIGHT : ℕ := 9

/-- `POSE_LANDMARKS.RIGHT_LEFT` — mis-named mouth-right index in the
MediaPipe JS code, as noted in the source. -/
def POSE_LANDMARKS.RIGHT_LEFT : ℕ := 10

def POSE_LANDMARKS.LEFT_HIP : ℕ := 23

def POSE_LANDMARKS.RIGHT_HIP : ℕ := 24

/-- `Poses.VISIBILITY_THRESHOLD` (pose-processing.ts line 43): `0.6`. -/
def Poses.VISIBILITY_THRESHOLD : ℚ := mkRat 6 10

/-- Modelled from the spec: the state of `OneEuroVectorFilter` from the
missing `src/helper/utils.ts` (§4.1 AdaptiveLowPassFilter): previous
timestamp, previous (smoothed) value, previous smoothed derivative, and the
parameters `min_cutoff`, `beta` and the fixed derivative cutoff `d_cutoff`.
The source constructs it as
`new OneEuroVectorFilter(this.t, this.pos, Vector3.Zero(), cutoff, beta)`. -/
structure OneEuroVectorFilter where
  t_prev : ℝ
  x_prev : Vec3
  dx_prev : Vec3
  min_cutoff : ℚ
  beta : ℚ
  d_cutoff : ℚ

/-- Modelled from the spec: the smoothing factor
`alpha(cutoff) = 1 / (1 + tau/te)` with `tau = 1/(2π·cutoff)` (§4.1). -/
def OneEuroVectorFilter.alpha (te cutoff : ℝ) : ℝ :=
  1 / (1 + (1 / (2 * Real.pi * cutoff)) / te)

/-- Modelled from the spec: component-wise exponential smoothing
`a·x + (1−a)·xPrev` used by both low-pass stages of §4.1. -/
def lowPass (a : ℝ) (x xPrev : Vec3) : Vec3 := (x.scale a).add (xPrev.scale (1 - a))

/-- Modelled from the spec: `OneEuroVectorFilter.next(t, x)` from the missing
`src/helper/utils.ts` (§4.1): if `te = t − t_prev ≤ 0` return the previous
output unchanged; otherwise smooth the raw derivative with the fixed cutoff,
derive the adaptive cutoff `min_cutoff + beta·‖edx‖`, low-pass `x` with it,
and store the updated state.  Returns the output and the updated filter. -/
def OneEuroVectorFilter.next (f : OneEuroVectorFilter) (t : ℝ) (x : Vec3) :
    Vec3 × OneEuroVectorFilter :=
  let te := t - f.t_prev
  if te ≤ 0 then (f.x_prev, f)
  else
    let dx := (x.subtract f.x_prev).scale (1 / te)
    let edx := lowPass (OneEuroVectorFilter.alpha te (f.d_cutoff : ℝ)) dx f.dx_prev
    let cutoff := (f.min_cutoff : ℝ) + (f.beta : ℝ) * edx.length
    let result := lowPass (OneEuroVectorFilter.alpha te cutoff) x f.x_prev
    (result, { f with t_prev := t, x_prev := result, dx_prev := edx })

/-- Modelled from the spec: `EuclideanHighPassFilter` from the missing
`src/helper/utils.ts` (§4.2 DeadZoneFilter): a distance threshold and the
held reference point (`value`), initially the zero vector. -/
structure EuclideanHighPassFilter where
  threshold : ℚ
  value : Vec3

/-- Modelled from the spec: `EuclideanHighPassFilter.update(v)` (§4.2):
the reference snaps to the new sample exactly when the sample's Euclidean
distance from the reference exceeds the threshold. -/
def EuclideanHighPassFilter.update (f : EuclideanHighPassFilter) (v : Vec3) :
    EuclideanHighPassFilter :=
  if (f.threshold : ℝ) < (v.subtract f.value).length then { f with value := v } else f

/-- `LandmarkTimeIncrementMode` (pose-processing.ts lines 255-258). -/
inductive LandmarkTimeIncrementMode where
  | Universal
  | RealTime

/-- The state of a `FilteredVectorLandmark` (pose-processing.ts lines
260-324): the two composed filters, the time-increment mode (`Universal` by
default), the time counter `t`, the current position `pos`, and the stored
`visibility`, initially `0`. -/
structure FilteredVectorLandmark where
  oneEuroVectorFilter : OneEuroVectorFilter
  highPassFilter : EuclideanHighPassFilter
  tIncrementMode : LandmarkTimeIncrementMode
  t : ℝ
  pos : Vec3
  visibility : Option ℚ

/-- The `FilteredVectorLandmark` constructor (lines 281-294): builds the
One-Euro filter from the initial `t = 0`, `pos = Zero` and a zero derivative,
and the high-pass filter from the given threshold. -/
def FilteredVectorLandmark.init
    (oneEuroCutoff oneEuroBeta highPassThreshold : ℚ) : FilteredVectorLandmark :=
  { oneEuroVectorFilter :=
      { t_prev := 0, x_prev := Vec3.zero, dx_prev := Vec3.zero,
        min_cutoff := oneEuroCutoff, beta := oneEuroBeta, d_cutoff := 1 }
    highPassFilter := { threshold := highPassThreshold, value := Vec3.zero }
    tIncrementMode := LandmarkTimeIncrementMode.Universal
    t := 0
    pos := Vec3.zero
    visibility := some 0 }

/-- The visibility gate of `updatePosition` (line 303):
`!visibility || visibility > Poses.VISIBILITY_THRESHOLD`.  A JavaScript
number is falsy exactly when it is absent or zero, so a present confidence
of `0` passes the gate. -/
def FilteredVectorLandmark.passesVisibilityGate (visibility : Option ℚ) : Bool :=
  match visibility with
  | none => true
  | some q => q == 0 || decide (Poses.VISIBILITY_THRESHOLD < q)

/-- `FilteredVectorLandmark.updatePosition(dt, pos, visibility?)` (lines
296-314): first advance `t` (by `1` in `Universal` mode, by `dt` in
`RealTime` mode), then, when the gate passes, run the One-Euro filter, feed
its output to the high-pass filter, take the high-pass value as the new
position and store the given visibility; otherwise change nothing further. -/
def FilteredVectorLandmark.updatePosition (s : FilteredVectorLandmark)
    (dt : ℝ) (pos : Vec3) (visibility : Option ℚ) : FilteredVectorLandmark :=
  let t' : ℝ :=
    match s.tIncrementMode with
    | LandmarkTimeIncrementMode.Universal => s.t + 1
    | LandmarkTimeIncrementMode.RealTime => s.t + dt
  if FilteredVectorLandmark.passesVisibilityGate visibility then
    let r := s.oneEuroVectorFilter.next t' pos
    let hp := s.highPassFilter.update r.1
    { s with t := t', oneEuroVectorFilter := r.2, highPassFilter := hp,
             pos := hp.value, visibility := visibility }
  else { s with t := t' }

/-- JavaScript truthiness of an optional numeric argument, as used by the
`if (min_cutoff)` / `if (beta)` guards of `updateFilterParameters`. -/
def optionTruthy (o : Option ℚ) : Bool :=
  match o with
  | none => false
  | some q => q != 0

/-- `FilteredVectorLandmark.updateFilterParameters(min_cutoff?, beta?,
d_cutoff?)` (lines 316-323): assigns `min_cutoff` and `beta` on the One-Euro
filter only when the given argument is truthy; the `d_cutoff` assignment is
commented out in the source. -/
def FilteredVectorLandmark.updateFilterParameters (s : FilteredVectorLandmark)
    (min_cutoff beta d_cutoff : Option ℚ) : FilteredVectorLandmark :=
  { s with oneEuroVectorFilter :=
      { s.oneEuroVectorFilter with
        min_cutoff := if optionTruthy min_cutoff then min_cutoff.getD s.oneEuroVectorFilter.min_cutoff
                      else s.oneEuroVectorFilter.min_cutoff
        beta := if optionTruthy beta then beta.getD s.oneEuroVectorFilter.beta
                else s.oneEuroVectorFilter.beta } }

/-- `CloneableResults` — the per-frame detector snapshot consumed by
`Poses.process`.  `poseLandmarks` and `faceLandmarks` are the documented
MediaPipe result fields; `ea` is the undocumented world-landmark field the
source reads in `preProcessResults` (line 194). -/
structure CloneableResults where
  poseLandmarks : Option (List NormalizedLandmark)
  ea : Option (List NormalizedLandmark)
  faceLandmarks : Option (List NormalizedLandmark)

/-- The mutable state of a `Poses` instance (pose-processing.ts lines
42-86). -/
structure Poses where
  cloneableInputResults : Option CloneableResults
  inputPoseLandmarks : List NormalizedLandmark
  poseLandmarks : List FilteredVectorLandmark
  inputFaceLandmarks : List NormalizedLandmark
  faceLandmarks : List FilteredVectorLandmark
  cloneablePoseLandmarks : List NormalizedLandmark
  faceNormals : List NormalizedLandmark
  faceMeshLandmarkIndexList : List (List ℕ)
  faceMeshLandmarkList : List (List NormalizedLandmark)
  midHipBase : Vec3
  firstResult : Bool

/-- The `Poses` initial state (lines 45-86): 33 pose filters constructed with
`(0.01, 2, 0.007)`, 478 face filters with `(0.02, 10, 0.003)` (the
constructor default high-pass threshold), zero-landmark buffers, empty
derived lists, `midHipBase = Zero` and `firstResult = true`. -/
def Poses.init : Poses :=
  { cloneableInputResults := none
    inputPoseLandmarks := List.replicate POSE_LANDMARK_LENGTH ⟨0, 0, 0, none⟩
    poseLandmarks := List.replicate POSE_LANDMARK_LENGTH
      (FilteredVectorLandmark.init (mkRat 1 100) 2 (mkRat 7 1000))
    inputFaceLandmarks := List.replicate FACE_LANDMARK_LENGTH ⟨0, 0, 0, none⟩
    faceLandmarks := List.replicate FACE_LANDMARK_LENGTH
      (FilteredVectorLandmark.init (mkRat 2 100) 10 (mkRat 3 1000))
    cloneablePoseLandmarks := List.replicate POSE_LANDMARK_LENGTH ⟨0, 0, 0, none⟩
    faceNormals := []
    faceMeshLandmarkIndexList := []
    faceMeshLandmarkList := []
    midHipBase := Vec3.zero
    firstResult := true }

/-- The output of one processing step: the state after the call (JavaScript
mutations performed before any thrown exception persist), whether the
wrong-length warning was logged (`console.warn`, line 197), and the message
of an uncaught `TypeError` when the call aborted. -/
structure ProcOut where
  state : Poses
  warned : Bool
  error : Option String

/-- The in-place coordinate transform applied to each raw landmark by
`preProcessLandmarks` (lines 230-234): add the offset and flip the vertical
axis. -/
def NormalizedLandmark.transformWith (offset : Vec3) (l : NormalizedLandmark) :
    NormalizedLandmark :=
  { l with x := l.x + offset.x, y := -l.y + offset.y, z := l.z + offset.z }

/-- The filter-update loop of `preProcessLandmarks` (lines 236-241): feed
each transformed landmark to the filter at the same index.  When the input
list is longer than the filter list the JavaScript loop updates every
existing filter and then throws; the extra inputs are dropped here and the
caller reports the error. -/
def updateFilterList :
    List FilteredVectorLandmark → List NormalizedLandmark → ℝ → List FilteredVectorLandmark
  | fs, [], _ => fs
  | [], _ :: _, _ => []
  | f :: fs, l :: ls, dt =>
      f.updatePosition dt (normalizedLandmarkToVector l) l.visibility :: updateFilterList fs ls dt

/-- `Poses.preProcessLandmarks(resultsLandmarks, filteredLandmarks, dt,
offset)` (lines 223-243): transform the raw landmarks in place, then update
the filters index by index.  Returns the transformed list, the updated
filters, and an error when the input list is longer than the filter list
(the JavaScript loop would dereference an undefined filter). -/
def Poses.preProcessLandmarks (resultsLandmarks : List NormalizedLandmark)
    (filteredLandmarks : List FilteredVectorLandmark) (dt : ℝ) (offset : Vec3) :
    List NormalizedLandmark × List FilteredVectorLandmark × Option String :=
  let transformed := resultsLandmarks.map (NormalizedLandmark.transformWith offset)
  let updated := updateFilterList filteredLandmarks transformed dt
  if transformed.length ≤ filteredLandmarks.length then (transformed, updated, none)
  else (transformed, updated, some "TypeError")

/-- The visibility-or-zero coercion `(lm.visibility || 0)` of the
calibration condition (lines 200-201). -/
def visOrZero (l : NormalizedLandmark) : ℚ := l.visibility.getD 0

/-- The one-time calibration step of `preProcessResults` (lines 198-208):
when `firstResult` is still set and both hip landmarks report a confidence
above the threshold, record the midpoint of the two raw hip positions as
`midHipBase` and clear `firstResult`; the result is the new
`(midHipBase, firstResult)` pair.  Short-circuit evaluation is modelled
faithfully: a hip index missing from the list is only a `TypeError` when the
condition actually reaches it. -/
def Poses.calibrateMidHip (p : Poses) (lms : List NormalizedLandmark) :
    Except String (Vec3 × Bool) :=
  if p.firstResult then
    match lms.get? POSE_LANDMARKS.LEFT_HIP with
    | none => Except.error "TypeError"
    | some leftHip =>
      if Poses.VISIBILITY_THRESHOLD < visOrZero leftHip then
        match lms.get? POSE_LANDMARKS.RIGHT_HIP with
        | none => Except.error "TypeError"
        | some rightHip =>
          if Poses.VISIBILITY_THRESHOLD < visOrZero rightHip then
            Except.ok (((normalizedLandmarkToVector leftHip).add
                (normalizedLandmarkToVector rightHip)).scale (1 / 2), false)
          else Except.ok (p.midHipBase, p.firstResult)
      else Except.ok (p.midHipBase, p.firstResult)
  else Except.ok (p.midHipBase, p.firstResult)

/-- The face half of `preProcessResults` (lines 215-220): when the input
face set is present, transform it with a zero offset and update the face
filters; absence leaves the face state untouched. -/
def Poses.preProcessFace (p : Poses) (dt : ℝ) (warned : Bool) : ProcOut :=
  match p.cloneableInputResults.bind CloneableResults.faceLandmarks with
  | none => ⟨p, warned, none⟩
  | some flms =>
    let r := Poses.preProcessLandmarks flms p.faceLandmarks dt Vec3.zero
    match r.2.2 with
    | some e => ⟨{ p with faceLandmarks := r.2.1 }, warned, some e⟩
    | none => ⟨{ p with inputFaceLandmarks := r.1, faceLandmarks := r.2.1 }, warned, none⟩

/-- `Poses.preProcessResults(dt)` (lines 190-221): read the undocumented
`ea` pose list; when present, log a warning if its length is wrong, run the
one-time calibration, and transform and filter it with the offset
`(0, midHipBase.y, 0)`; then handle the face list with a zero offset. -/
def Poses.preProcessResults (p : Poses) (dt : ℝ) : ProcOut :=
  match p.cloneableInputResults.bind CloneableResults.ea with
  | none => Poses.preProcessFace p dt false
  | some lms =>
    let warned := decide (lms.length ≠ POSE_LANDMARK_LENGTH)
    match Poses.calibrateMidHip p lms with
    | Except.error e => ⟨p, warned, some e⟩
    | Except.ok c =>
      let p1 := { p with midHipBase := c.1, firstResult := c.2 }
      let r := Poses.preProcessLandmarks lms p1.poseLandmarks dt ⟨0, p1.midHipBase.y, 0⟩
      match r.2.2 with
      | some e => ⟨{ p1 with poseLandmarks := r.2.1 }, warned, some e⟩
      | none =>
        Poses.preProcessFace { p1 with inputPoseLandmarks := r.1, poseLandmarks := r.2.1 }
          dt warned

/-- `Poses.normalFromVertices(vertices, reverse)` (lines 180-188): with the
fixed winding (`reverse = false`, the only value used), build the two edge
vectors `v1 − v0` and `v2 − v1` and return their normalized cross product. -/
def Poses.normalFromVertices
    (vertices : FilteredVectorLandmark × FilteredVectorLandmark × FilteredVectorLandmark)
    (reverse : Bool) : Vec3 :=
  let vs := if reverse then (vertices.2.2, vertices.2.1, vertices.1) else vertices
  ((vs.2.1.pos.subtract vs.1.pos).cross (vs.2.2.pos.subtract vs.2.1.pos)).normalize

/-- The four fixed triangles of `calcFaceNormal` (lines 161-166), built from
the selected eye-inner and mouth corners. -/
def Poses.faceVertices (lei rei ml mr : FilteredVectorLandmark) :
    List (FilteredVectorLandmark × FilteredVectorLandmark × FilteredVectorLandmark) :=
  [(lei, ml, rei), (rei, lei, mr), (ml, mr, rei), (ml, mr, lei)]

/-- The un-normalized aggregate of `calcFaceNormal` (lines 171-175): the
`reduce` summing the per-triangle normals starting from `Vector3.Zero()`. -/
def Poses.sumFaceNormals (lei rei ml mr : FilteredVectorLandmark) : Vec3 :=
  (Poses.faceVertices lei rei ml mr).foldl
    (fun prev curr => prev.add (Poses.normalFromVertices curr false)) Vec3.zero

/-- The aggregate orientation normal of `calcFaceNormal` (line 175): the
normal sum, renormalized. -/
def Poses.faceNormalAggregate (lei rei ml mr : FilteredVectorLandmark) : Vec3 :=
  (Poses.sumFaceNormals lei rei ml mr).normalize

/-- The JavaScript `Set` insertion used when deduplicating connection
indices (lines 134-138): append a value unless it is already present,
preserving insertion order. -/
def insertUnique (l : List ℕ) (v : ℕ) : List ℕ := if v ∈ l then l else l ++ [v]

/-- The per-connection-group index list of `calcFaceNormal` (lines 133-140):
both endpoints of every connection pair, deduplicated in insertion order. -/
def connIndices (conn : List (ℕ × ℕ)) : List ℕ :=
  conn.foldl (fun acc pr => insertUnique (insertUnique acc pr.1) pr.2) []

/-- The per-point export of the face-mesh debug output (lines 142-147).  The
source populates the exported `z` field from `pos.x`. -/
def Poses.exportFaceMeshLandmark (fl : FilteredVectorLandmark) : NormalizedLandmark :=
  ⟨fl.pos.x, fl.pos.y, fl.pos.x, fl.visibility⟩

/-- The face-mesh debug point lists of `calcFaceNormal` (lines 141-149): for
every index group, the exported filtered landmark at each index.  `none`
models the `TypeError` the JavaScript loop throws on an index outside the
filtered face list. -/
def Poses.buildFaceMeshLandmarkList (faceLandmarks : List FilteredVectorLandmark)
    (idxLists : List (List ℕ)) : Option (List (List NormalizedLandmark)) :=
  idxLists.mapM fun idxs =>
    idxs.mapM fun i => (faceLandmarks.get? i).map Poses.exportFaceMeshLandmark

/-- The face-mesh key-point lookup `faceLandmarks[idxLists[g][j]]` of lines
153-158. -/
def Poses.meshKeyPoint (faceLandmarks : List FilteredVectorLandmark)
    (idxLists : List (List ℕ)) (g j : ℕ) : Option FilteredVectorLandmark :=
  ((idxLists.get? g).bind fun grp => grp.get? j).bind fun i => faceLandmarks.get? i

/-- The tail of `calcFaceNormal` (lines 161-177): given the four selected
key points, overwrite `faceNormals` with the single aggregate normal.  A
missing key point (an undefined landmark lookup) is the `TypeError` the
JavaScript `.pos` access would throw. -/
def Poses.applyFaceNormal (p : Poses) (lei rei ml mr : Option FilteredVectorLandmark) :
    Poses × Option String :=
  match lei, rei, ml, mr with
  | some a, some b, some c, some d =>
    ({ p with faceNormals :=
        [vectorToNormalizedLandmark (Poses.faceNormalAggregate a b c d)] }, none)
  | _, _, _, _ => (p, some "TypeError")

/-- `Poses.calcFaceNormal()` (lines 106-178), parametrized by the seven
`FACEMESH_*` connection groups (eyebrows, eyes, irises, lips) that the
source imports from the external `@mediapipe/holistic` package.  When the
input face set is absent it falls back to the filtered pose landmarks
(returning untouched when the input pose set is absent too); otherwise it
rebuilds the face-mesh index and point lists and reads the six key points
from the mesh.  Either way the aggregate normal of the four triangles is
written as the single entry of `faceNormals`.  The returned option is the
message of an uncaught `TypeError` (missing landmark index). -/
def Poses.calcFaceNormal (p : Poses) (conns : List (List (ℕ × ℕ))) :
    Poses × Option String :=
  match p.cloneableInputResults.bind CloneableResults.faceLandmarks with
  | none =>
    match p.cloneableInputResults.bind CloneableResults.poseLandmarks with
    | none => (p, none)
    | some _ =>
      Poses.applyFaceNormal p
        (p.poseLandmarks.get? POSE_LANDMARKS.LEFT_EYE_INNER)
        (p.poseLandmarks.get? POSE_LANDMARKS.RIGHT_EYE_INNER)
        (p.poseLandmarks.get? POSE_LANDMARKS.LEFT_RIGHT)
        (p.poseLandmarks.get? POSE_LANDMARKS.RIGHT_LEFT)
  | some _ =>
    let idxLists := conns.map connIndices
    match Poses.buildFaceMeshLandmarkList p.faceLandmarks idxLists with
    | none => ({ p with faceMeshLandmarkIndexList := idxLists }, some "TypeError")
    | some meshLists =>
      Poses.applyFaceNormal
        { p with faceMeshLandmarkIndexList := idxLists, faceMeshLandmarkList := meshLists }
        (Poses.meshKeyPoint p.faceLandmarks idxLists 2 8)
        (Poses.meshKeyPoint p.faceLandmarks idxLists 3 8)
        (Poses.meshKeyPoint p.faceLandmarks idxLists 6 10)
        (Poses.meshKeyPoint p.faceLandmarks idxLists 6 0)

/-- The copy loop of `postPoseLandmarks` (lines 245-252): each cloneable
entry receives the position components and visibility of the filtered pose
landmark at its index.  The two lists always have the same fixed length; a
missing filter (impossible for well-formed states) leaves the entry as is. -/
def postExportList :
    List NormalizedLandmark → List FilteredVectorLandmark → List NormalizedLandmark
  | [], _ => []
  | v :: vs, [] => v :: postExportList vs []
  | _ :: vs, f :: fs => ⟨f.pos.x, f.pos.y, f.pos.z, f.visibility⟩ :: postExportList vs fs

/-- `Poses.postPoseLandmarks()` (lines 245-252). -/
def Poses.postPoseLandmarks (p : Poses) : Poses :=
  { p with cloneablePoseLandmarks := postExportList p.cloneablePoseLandmarks p.poseLandmarks }

/-- `Poses.process(results, dt)` (lines 88-100): store the input snapshot,
pre-process both landmark sets, compute the face normal, and export the
cloneable pose landmarks.  A `TypeError` thrown inside a step aborts the
remaining steps but keeps the mutations already performed. -/
def Poses.process (p : Poses) (results : CloneableResults)
    (conns : List (List (ℕ × ℕ))) (dt : ℝ) : ProcOut :=
  let p0 := { p with cloneableInputResults := some results }
  let r1 := p0.preProcessResults dt
  match r1.error with
  | some e => ⟨r1.state, r1.warned, some e⟩
  | none =>
    let r2 := r1.state.calcFaceNormal conns
    match r2.2 with
    | some e => ⟨r2.1, r1.warned, some e⟩
    | none => ⟨r2.1.postPoseLandmarks, r1.warned, none⟩

/-- A face filter state (constructed as by `Poses` for face landmarks) whose
position has been moved to `v`; used to evaluate the geometry on concrete
inputs. -/
def testLandmark (v : Vec3) : FilteredVectorLandmark :=
  { FilteredVectorLandmark.init (mkRat 2 100) 10 (mkRat 3 1000) with pos := v }

/-- Concrete key points: a unit square in the plane `z = 0` (a canonical
frontal-face arrangement). -/
def sqA : FilteredVectorLandmark := testLandmark ⟨0, 1, 0⟩

def sqB : FilteredVectorLandmark := testLandmark ⟨1, 1, 0⟩

def sqC : FilteredVectorLandmark := testLandmark ⟨0, 0, 0⟩

def sqD : FilteredVectorLandmark := testLandmark ⟨1, 0, 0⟩

/-- A mouth-right key point placed so that the four triangle normals cancel
pairwise. -/
def sqE : FilteredVectorLandmark := testLandmark ⟨1, 2, 0⟩

/-- A raw input landmark with confidence 0.7 (above the threshold). -/
def lmW : NormalizedLandmark := ⟨0, 0, 0, some (mkRat 7 10)⟩

/-- An input snapshot with a full-length pose list of confident landmarks
(hips included) and no face list. -/
def resCalib : CloneableResults :=
  ⟨none, some (List.replicate POSE_LANDMARK_LENGTH lmW), none⟩

/-- A fresh processor about to receive `resCalib`. -/
def posesCalib : Poses := { Poses.init with cloneableInputResults := some resCalib }

/-- An input snapshot with a one-landmark pose list and a one-landmark face
list. -/
def resTrans : CloneableResults :=
  ⟨none, some [⟨1, 2, 3, some (mkRat 7 10)⟩], some [⟨4, 5, 6, none⟩]⟩

/-- An already-calibrated processor about to receive `resTrans`. -/
def posesTrans : Poses :=
  { Poses.init with cloneableInputResults := some resTrans, firstResult := false }

/-- A wrong-length (26-entry) pose list. -/
def lms26 : List NormalizedLandmark := List.replicate 26 lmW

/-- An input snapshot carrying the wrong-length pose list and no face
list. -/
def resWrong : CloneableResults := ⟨none, some lms26, none⟩

/-- An already-calibrated processor about to receive `resWrong`. -/
def posesWrong : Poses :=
  { Poses.init with cloneableInputResults := some resWrong, firstResult := false }

/-- An input snapshot with both landmark sets absent. -/
def resEmpty : CloneableResults := ⟨none, none, none⟩

/-! ## Helper lemmas -/

theorem Vec3.length_nonneg (v : Vec3) : 0 ≤ v.length := Real.sqrt_nonneg _

theorem Vec3.length_eq_zero_iff (v : Vec3) : v.length = 0 ↔ v = Vec3.zero := by
  unfold Vec3.length
  rw [Real.sqrt_eq_zero (by positivity)]
  constructor
  · intro h
    have hx : v.x ^ 2 = 0 := by nlinarith [sq_nonneg v.x, sq_nonneg v.y, sq_nonneg v.z]
    have hy : v.y ^ 2 = 0 := by nlinarith [sq_nonneg v.x, sq_nonneg v.y, sq_nonneg v.z]
    have hz : v.z ^ 2 = 0 := by nlinarith [sq_nonneg v.x, sq_nonneg v.y, sq_nonneg v.z]
    cases v
    simp only [Vec3.zero, Vec3.mk.injEq]
    exact ⟨pow_eq_zero_iff two_ne_zero |>.mp hx, pow_eq_zero_iff two_ne_zero |>.mp hy,
      pow_eq_zero_iff two_ne_zero |>.mp hz⟩
  · rintro rfl
    simp [Vec3.zero]

theorem Vec3.length_scale (v : Vec3) (c : ℝ) : (v.scale c).length = |c| * v.length := by
  unfold Vec3.length Vec3.scale
  rw [show (v.x * c) ^ 2 + (v.y * c) ^ 2 + (v.z * c) ^ 2
        = c ^ 2 * (v.x ^ 2 + v.y ^ 2 + v.z ^ 2) by ring,
    Real.sqrt_mul (sq_nonneg c), Real.sqrt_sq_eq_abs]

theorem Vec3.length_normalize (v : Vec3) (h : v ≠ Vec3.zero) :
    v.normalize.length = 1 := by
  unfold Vec3.normalize
  have hne : v.length ≠ 0 := fun h0 => h ((Vec3.length_eq_zero_iff v).mp h0)
  split
  · rename_i hc
    rcases hc with hc | hc
    · exact absurd hc hne
    · exact hc
  · have hpos : 0 < v.length := lt_of_le_of_ne (Vec3.length_nonneg v) (Ne.symm hne)
    rw [Vec3.length_scale, abs_of_pos (one_div_pos.mpr hpos),
      one_div, inv_mul_cancel₀ hne]

theorem Vec3.normalize_of_length_one (v : Vec3) (h : v.length = 1) :
    v.normalize = v := by
  unfold Vec3.normalize
  rw [if_pos (Or.inr h)]

theorem Vec3.length_zero_vec : Vec3.zero.length = 0 := by
  simp [Vec3.zero, Vec3.length]

theorem Vec3.normalize_zero_vec : Vec3.zero.normalize = Vec3.zero := by
  unfold Vec3.normalize
  rw [if_pos (Or.inl Vec3.length_zero_vec)]

theorem Vec3.add_zero_vec (w : Vec3) : w.add Vec3.zero = w := by
  simp [Vec3.add, Vec3.zero]

theorem Vec3.length_unitZ : Vec3.length ⟨0, 0, 1⟩ = 1 := by
  unfold Vec3.length
  norm_num

theorem Vec3.length_negUnitZ : Vec3.length ⟨0, 0, -1⟩ = 1 := by
  unfold Vec3.length
  norm_num

theorem Vec3.normalize_unitZ : Vec3.normalize ⟨0, 0, 1⟩ = ⟨0, 0, 1⟩ :=
  Vec3.normalize_of_length_one _ Vec3.length_unitZ

theorem Vec3.normalize_negUnitZ : Vec3.normalize ⟨0, 0, -1⟩ = ⟨0, 0, -1⟩ :=
  Vec3.normalize_of_length_one _ Vec3.length_negUnitZ

theorem normalFromVertices_sq1 : Poses.normalFromVertices (sqA, sqC, sqB) false = ⟨0, 0, 1⟩ := by
  unfold Poses.normalFromVertices sqA sqB sqC testLandmark
  norm_num [Vec3.subtract, Vec3.cross]
  exact Vec3.normalize_unitZ

theorem normalFromVertices_sq2 : Poses.normalFromVertices (sqB, sqA, sqD) false = ⟨0, 0, 1⟩ := by
  unfold Poses.normalFromVertices sqA sqB sqD testLandmark
  norm_num [Vec3.subtract, Vec3.cross]
  exact Vec3.normalize_unitZ

theorem normalFromVertices_sq3 : Poses.normalFromVertices (sqC, sqD, sqB) false = ⟨0, 0, 1⟩ := by
  unfold Poses.normalFromVertices sqB sqC sqD testLandmark
  norm_num [Vec3.subtract, Vec3.cross]
  exact Vec3.normalize_unitZ

theorem normalFromVertices_sq4 : Poses.normalFromVertices (sqC, sqD, sqA) false = ⟨0, 0, 1⟩ := by
  unfold Poses.normalFromVertices sqA sqC sqD testLandmark
  norm_num [Vec3.subtract, Vec3.cross]
  exact Vec3.normalize_unitZ

theorem normalFromVertices_ce2 : Poses.normalFromVertices (sqB, sqA, sqE) false = ⟨0, 0, -1⟩ := by
  unfold Poses.normalFromVertices sqA sqB sqE testLandmark
  norm_num [Vec3.subtract, Vec3.cross]
  exact Vec3.normalize_negUnitZ

theorem normalFromVertices_ce3 : Poses.normalFromVertices (sqC, sqE, sqB) false = ⟨0, 0, -1⟩ := by
  unfold Poses.normalFromVertices sqB sqC sqE testLandmark
  norm_num [Vec3.subtract, Vec3.cross]
  exact Vec3.normalize_negUnitZ

theorem normalFromVertices_ce4 : Poses.normalFromVertices (sqC, sqE, sqA) false = ⟨0, 0, 1⟩ := by
  unfold Poses.normalFromVertices sqA sqC sqE testLandmark
  norm_num [Vec3.subtract, Vec3.cross]
  exact Vec3.normalize_unitZ

theorem sumFaceNormals_square : Poses.sumFaceNormals sqA sqB sqC sqD = ⟨0, 0, 4⟩ := by
  unfold Poses.sumFaceNormals Poses.faceVertices
  simp only [List.foldl_cons, List.foldl_nil, normalFromVertices_sq1,
    normalFromVertices_sq2, normalFromVertices_sq3, normalFromVertices_sq4]
  norm_num [Vec3.add, Vec3.zero]

theorem sumFaceNormals_cancel : Poses.sumFaceNormals sqA sqB sqC sqE = Vec3.zero := by
  unfold Poses.sumFaceNormals Poses.faceVertices
  simp only [List.foldl_cons, List.foldl_nil, normalFromVertices_sq1,
    normalFromVertices_ce2, normalFromVertices_ce3, normalFromVertices_ce4]
  norm_num [Vec3.add, Vec3.zero]

theorem Vec3.length_xc (c : ℝ) (hc : 0 ≤ c) : Vec3.length ⟨c, 0, 0⟩ = c := by
  unfold Vec3.length
  norm_num
  exact Real.sqrt_sq hc

theorem Vec3.normalize_zzc (c : ℝ) (hc : 0 < c) : Vec3.normalize ⟨0, 0, c⟩ = ⟨0, 0, 1⟩ := by
  have hlen : Vec3.length ⟨0, 0, c⟩ = c := by
    unfold Vec3.length
    norm_num
    exact Real.sqrt_sq hc.le
  unfold Vec3.normalize
  by_cases h1 : c = 1
  · subst h1
    rw [if_pos (Or.inr hlen)]
  · rw [if_neg (by rw [hlen]; push_neg; exact ⟨hc.ne', h1⟩)]
    unfold Vec3.scale
    rw [hlen]
    norm_num [mul_inv_cancel₀ hc.ne']

theorem passesVisibilityGate_false {q : ℚ} (hq0 : q ≠ 0)
    (hqT : q ≤ Poses.VISIBILITY_THRESHOLD) :
    FilteredVectorLandmark.passesVisibilityGate (some q) = false := by
  simp [FilteredVectorLandmark.passesVisibilityGate, hq0, not_lt.mpr hqT]

theorem updatePosition_of_gate_false (s : FilteredVectorLandmark) (dt : ℝ) (pos : Vec3)
    {v : Option ℚ} (h : FilteredVectorLandmark.passesVisibilityGate v = false) :
    s.updatePosition dt pos v =
      { s with t :=
          match s.tIncrementMode with
          | LandmarkTimeIncrementMode.Universal => s.t + 1
          | LandmarkTimeIncrementMode.RealTime => s.t + dt } := by
  simp [FilteredVectorLandmark.updatePosition, h]

theorem updatePosition_t_advance (s : FilteredVectorLandmark) (dt : ℝ)
    (pos : Vec3) (v : Option ℚ) :
    (s.updatePosition dt pos v).t =
      match s.tIncrementMode with
      | LandmarkTimeIncrementMode.Universal => s.t + 1
      | LandmarkTimeIncrementMode.RealTime => s.t + dt := by
  rcases s with ⟨oe, hp, mode, t, p, vis⟩
  cases mode <;> simp only [FilteredVectorLandmark.updatePosition] <;> split <;> rfl

/-! ## Claim C1 -/

/-- C1 (amended): an `updatePosition` call whose confidence argument is
present, nonzero, and below the visibility threshold 0.6 leaves the stored
position and stored confidence exactly at their previous values, for any
number of consecutive such calls.  (A present confidence of exactly `0` is
falsy in JavaScript and is treated as absent, so it is accepted — see the
counterexample.) -/
theorem updatePosition_low_confidence_freezes (s : FilteredVectorLandmark) (q : ℚ)
    (hq0 : q ≠ 0) (hqT : q < Poses.VISIBILITY_THRESHOLD) (calls : List (ℝ × Vec3)) :
    (calls.foldl (fun a c => a.updatePosition c.1 c.2 (some q)) s).pos = s.pos ∧
    (calls.foldl (fun a c => a.updatePosition c.1 c.2 (some q)) s).visibility = s.visibility := by
  induction calls generalizing s with
  | nil => exact ⟨rfl, rfl⟩
  | cons c cs ih =>
    simp only [List.foldl_cons,
      updatePosition_of_gate_false s c.1 c.2 (passesVisibilityGate_false hq0 (le_of_lt hqT))]
    exact ih _

/-- Witness for C1: confidence 0.3 over one frame, starting from a pose
filter in its constructed state. -/
theorem updatePosition_low_confidence_freezes_witness :
    (mkRat 3 10) ≠ 0 ∧ (mkRat 3 10) < Poses.VISIBILITY_THRESHOLD ∧
    (([((0 : ℝ), Vec3.one)]).foldl
        (fun a c => a.updatePosition c.1 c.2 (some (mkRat 3 10)))
        (FilteredVectorLandmark.init (mkRat 1 100) 2 (mkRat 7 1000))).pos =
      (FilteredVectorLandmark.init (mkRat 1 100) 2 (mkRat 7 1000)).pos :=
  ⟨by decide, by decide,
    (updatePosition_low_confidence_freezes _ _ (by decide) (by decide) _).1⟩

/-- Counterexample for C1 as stated: a present confidence of `0` is below
the threshold, yet the gate accepts it (JavaScript falsiness), and the call
overwrites the stored confidence. -/
theorem updatePosition_zero_confidence_not_skipped :
    (0 : ℚ) < Poses.VISIBILITY_THRESHOLD ∧
    ({ FilteredVectorLandmark.init (mkRat 1 100) 2 (mkRat 7 1000) with
        visibility := some (mkRat 9 10) } : FilteredVectorLandmark).visibility = some (mkRat 9 10) ∧
    (({ FilteredVectorLandmark.init (mkRat 1 100) 2 (mkRat 7 1000) with
        visibility := some (mkRat 9 10) } : FilteredVectorLandmark).updatePosition 0 Vec3.one
          (some 0)).visibility = some 0 ∧
    (some (0 : ℚ) : Option ℚ) ≠ some (mkRat 9 10) := by
  refine ⟨by decide, rfl, ?_, by decide⟩
  simp [FilteredVectorLandmark.updatePosition, FilteredVectorLandmark.passesVisibilityGate]

/-! ## Claim C3 -/

/-- C3 (amended): the internal time counter `t` advances on **every**
`updatePosition` call — by `1` in `Universal` mode and by `dt` in `RealTime`
mode — whether or not the confidence gate accepts the update, because the
source increments `t` before the gate. -/
theorem updatePosition_always_advances_t (s : FilteredVectorLandmark) (dt : ℝ)
    (pos : Vec3) (v : Option ℚ) :
    (s.updatePosition dt pos v).t =
      match s.tIncrementMode with
      | LandmarkTimeIncrementMode.Universal => s.t + 1
      | LandmarkTimeIncrementMode.RealTime => s.t + dt :=
  updatePosition_t_advance s dt pos v

/-- Counterexample for C3 as stated: a call rejected by the confidence gate
(confidence 0.3 < 0.6) still advances `t` from `0` to `1`. -/
theorem updatePosition_rejected_still_advances_t :
    (mkRat 3 10) ≠ 0 ∧ (mkRat 3 10) < Poses.VISIBILITY_THRESHOLD ∧
    ((FilteredVectorLandmark.init (mkRat 1 100) 2 (mkRat 7 1000)).updatePosition 0 Vec3.one
        (some (mkRat 3 10))).t = 1 ∧
    ((1 : ℝ) ≠ (FilteredVectorLandmark.init (mkRat 1 100) 2 (mkRat 7 1000)).t) := by
  refine ⟨by decide, by decide, ?_, ?_⟩
  · rw [updatePosition_of_gate_false _ _ _ (passesVisibilityGate_false (by decide) (by decide))]
    show (0 : ℝ) + 1 = 1
    norm_num
  · show (1 : ℝ) ≠ 0
    norm_num

/-! ## Claim C10 -/

/-- C10 (amended): `updateFilterParameters` with provided **nonzero**
`min_cutoff` and `beta` sets exactly those two One-Euro parameters and
leaves every other component of the landmark's state — position, time
counter, visibility, One-Euro history and the high-pass dead-zone state —
unchanged.  (A provided value of `0` is falsy in JavaScript and is ignored —
see the counterexample.) -/
theorem updateFilterParameters_sets_nonzero_params (s : FilteredVectorLandmark)
    (c b : ℚ) (hc : c ≠ 0) (hb : b ≠ 0) :
    s.updateFilterParameters (some c) (some b) none =
      { s with oneEuroVectorFilter :=
          { s.oneEuroVectorFilter with min_cutoff := c, beta := b } } := by
  simp [FilteredVectorLandmark.updateFilterParameters, optionTruthy, hc, hb]

/-- Witness for C10: reconfiguring a freshly constructed pose filter with
`min_cutoff = 1` and `beta = 1`. -/
theorem updateFilterParameters_sets_nonzero_params_witness :
    (1 : ℚ) ≠ 0 ∧
    (FilteredVectorLandmark.init (mkRat 1 100) 2 (mkRat 7 1000)).updateFilterParameters
        (some 1) (some 1) none =
      { FilteredVectorLandmark.init (mkRat 1 100) 2 (mkRat 7 1000) with
        oneEuroVectorFilter :=
          { (FilteredVectorLandmark.init (mkRat 1 100) 2 (mkRat 7 1000)).oneEuroVectorFilter with
            min_cutoff := 1, beta := 1 } } :=
  ⟨by decide, updateFilterParameters_sets_nonzero_params _ 1 1 (by decide) (by decide)⟩

/-- Counterexample for C10 as stated: providing `beta = 0` (a meaningful
parameter value — it degenerates the filter to constant-cutoff smoothing)
does **not** set the parameter: the JavaScript truthiness guard `if (beta)`
skips the assignment and `beta` stays `2`. -/
theorem updateFilterParameters_zero_beta_ignored :
    ((FilteredVectorLandmark.init (mkRat 1 100) 2 (mkRat 7 1000)).updateFilterParameters
        (some (mkRat 5 100)) (some 0) none).oneEuroVectorFilter.beta = 2 ∧ (2 : ℚ) ≠ 0 := by
  constructor
  · simp [FilteredVectorLandmark.updateFilterParameters, optionTruthy,
      FilteredVectorLandmark.init]
  · decide

/-! ## Claim C2 -/

/-- C2 (amended): whenever the sum of the four per-triangle normals is
nonzero, the aggregate orientation vector exported for the frame has
Euclidean magnitude 1 within 1e-6 (the renormalization of a nonzero vector
is exactly unit length in the real-number model).  The claim's original
hypothesis — at least one triangle contributing a valid normal — is not
sufficient: valid unit normals can cancel in the sum, in which case
Babylon's `normalize` returns the zero vector; see the counterexample. -/
theorem faceNormalAggregate_unit_of_sum_ne_zero (lei rei ml mr : FilteredVectorLandmark)
    (h : Poses.sumFaceNormals lei rei ml mr ≠ Vec3.zero) :
    |(Poses.faceNormalAggregate lei rei ml mr).length - 1| ≤ 1 / 1000000 := by
  unfold Poses.faceNormalAggregate
  rw [Vec3.length_normalize _ h]
  norm_num

/-- Witness for C2: the canonical frontal-face square, whose four triangle
normals all point along `+z` and sum to `(0, 0, 4)`. -/
theorem faceNormalAggregate_unit_of_sum_ne_zero_witness :
    Poses.sumFaceNormals sqA sqB sqC sqD ≠ Vec3.zero ∧
    |(Poses.faceNormalAggregate sqA sqB sqC sqD).length - 1| ≤ 1 / 1000000 := by
  have h : Poses.sumFaceNormals sqA sqB sqC sqD ≠ Vec3.zero := by
    simp [sumFaceNormals_square, Vec3.zero]
  exact ⟨h, faceNormalAggregate_unit_of_sum_ne_zero _ _ _ _ h⟩

/-- Counterexample for C2 as stated: with the mouth-right point at
`(1, 2, 0)` all four triangles contribute valid (nonzero) unit normals —
`(0,0,1), (0,0,-1), (0,0,-1), (0,0,1)` — but they cancel, the sum is the
zero vector, `normalize` leaves it unchanged, and the exported orientation
vector has magnitude 0, not 1 ± 1e-6. -/
theorem faceNormal_cancellation_breaks_unit_norm :
    Poses.normalFromVertices (sqA, sqC, sqB) false ≠ Vec3.zero ∧
    ¬ |(Poses.faceNormalAggregate sqA sqB sqC sqE).length - 1| ≤ 1 / 1000000 := by
  constructor
  · rw [normalFromVertices_sq1]
    simp [Vec3.zero]
  · unfold Poses.faceNormalAggregate
    rw [sumFaceNormals_cancel, Vec3.normalize_zero_vec, Vec3.length_zero_vec]
    norm_num

/-! ## Claim C5 -/

/-- C5 (amended): a triangle whose edge vectors have an exactly-zero cross
product (degenerate or collinear points) contributes the zero vector to the
aggregate sum — Babylon's `normalize` returns a zero-length vector
unchanged — which is equivalent to excluding it, and no undefined
normalization arises in the real-number model.  There is, however, no
near-zero guard in the source: a triangle whose edges are near zero but not
exactly degenerate still contributes a full unit normal (see the
counterexample). -/
theorem normalFromVertices_degenerate_contributes_zero
    (v0 v1 v2 : FilteredVectorLandmark)
    (h : (v1.pos.subtract v0.pos).cross (v2.pos.subtract v1.pos) = Vec3.zero) :
    Poses.normalFromVertices (v0, v1, v2) false = Vec3.zero ∧
    ∀ w : Vec3, w.add (Poses.normalFromVertices (v0, v1, v2) false) = w := by
  have h1 : Poses.normalFromVertices (v0, v1, v2) false = Vec3.zero := by
    unfold Poses.normalFromVertices
    simp only [Bool.false_eq_true, if_false]
    rw [h, Vec3.normalize_zero_vec]
  exact ⟨h1, fun w => by rw [h1, Vec3.add_zero_vec]⟩

/-- Witness for C5: a fully degenerate triangle (second and third vertex
coincide) has a zero cross product and contributes nothing. -/
theorem normalFromVertices_degenerate_witness :
    ((testLandmark ⟨1, 0, 0⟩).pos.subtract (testLandmark ⟨0, 0, 0⟩).pos).cross
        ((testLandmark ⟨1, 0, 0⟩).pos.subtract (testLandmark ⟨1, 0, 0⟩).pos) = Vec3.zero ∧
    Poses.normalFromVertices
        (testLandmark ⟨0, 0, 0⟩, testLandmark ⟨1, 0, 0⟩, testLandmark ⟨1, 0, 0⟩) false =
      Vec3.zero := by
  have h : ((testLandmark ⟨1, 0, 0⟩).pos.subtract (testLandmark ⟨0, 0, 0⟩).pos).cross
      ((testLandmark ⟨1, 0, 0⟩).pos.subtract (testLandmark ⟨1, 0, 0⟩).pos) = Vec3.zero := by
    simp [testLandmark, FilteredVectorLandmark.init, Vec3.subtract, Vec3.cross, Vec3.zero]
  exact ⟨h, (normalFromVertices_degenerate_contributes_zero _ _ _ h).1⟩

/-- Counterexample for C5 as stated: a triangle with near-zero edge vectors
(magnitude 1e-6) is **not** excluded from the sum — its tiny cross product
`(0, 0, 1e-12)` is normalized up to the full unit normal `(0, 0, 1)`. -/
theorem nearZero_edge_triangle_not_excluded :
    ((testLandmark ⟨1 / 1000000, 0, 0⟩).pos.subtract
        (testLandmark ⟨0, 0, 0⟩).pos).length ≤ 1 / 1000000 ∧
    Poses.normalFromVertices
        (testLandmark ⟨0, 0, 0⟩, testLandmark ⟨1 / 1000000, 0, 0⟩,
          testLandmark ⟨0, 1 / 1000000, 0⟩) false ≠ Vec3.zero := by
  constructor
  · have h1 : (testLandmark ⟨1 / 1000000, 0, 0⟩).pos.subtract
        (testLandmark ⟨0, 0, 0⟩).pos = ⟨1 / 1000000, 0, 0⟩ := by
      norm_num [testLandmark, FilteredVectorLandmark.init, Vec3.subtract]
    rw [h1, Vec3.length_xc _ (by norm_num)]
  · have hcross : Poses.normalFromVertices
        (testLandmark ⟨0, 0, 0⟩, testLandmark ⟨1 / 1000000, 0, 0⟩,
          testLandmark ⟨0, 1 / 1000000, 0⟩) false =
        Vec3.normalize ⟨0, 0, 1 / 1000000000000⟩ := by
      unfold Poses.normalFromVertices testLandmark FilteredVectorLandmark.init
      norm_num [Vec3.subtract, Vec3.cross]
    rw [hcross, Vec3.normalize_zzc _ (by norm_num)]
    simp [Vec3.zero]

/-! ## Claim C8 -/

/-- C8 (code bug): the dense-mesh sub-region export copies `pos.x` into the
exported `z` field (pose-processing.ts line 145, evidently a copy-paste slip
in the `{x: pos.x, y: pos.y, z: pos.x}` literal), so a filtered landmark at
position `(1, 2, 3)` is exported as `(1, 2, 1)` — its exported `z` is `1`,
not the claimed `pos.z = 3`. -/
theorem faceMesh_export_z_is_pos_x :
    Poses.buildFaceMeshLandmarkList [testLandmark ⟨1, 2, 3⟩] [[0]] =
      some [[⟨1, 2, 1, some 0⟩]] ∧
    (testLandmark ⟨1, 2, 3⟩).pos.z = 3 ∧ (1 : ℝ) ≠ 3 := by
  refine ⟨rfl, rfl, by norm_num⟩

/-! ## Frame-level helper lemmas -/

theorem applyFaceNormal_preserves (p : Poses)
    (lei rei ml mr : Option FilteredVectorLandmark) :
    (Poses.applyFaceNormal p lei rei ml mr).1.poseLandmarks = p.poseLandmarks ∧
    (Poses.applyFaceNormal p lei rei ml mr).1.midHipBase = p.midHipBase ∧
    (Poses.applyFaceNormal p lei rei ml mr).1.firstResult = p.firstResult ∧
    (Poses.applyFaceNormal p lei rei ml mr).1.inputPoseLandmarks = p.inputPoseLandmarks ∧
    (Poses.applyFaceNormal p lei rei ml mr).1.faceLandmarks = p.faceLandmarks ∧
    (Poses.applyFaceNormal p lei rei ml mr).1.inputFaceLandmarks = p.inputFaceLandmarks ∧
    (Poses.applyFaceNormal p lei rei ml mr).1.faceMeshLandmarkIndexList
      = p.faceMeshLandmarkIndexList ∧
    (Poses.applyFaceNormal p lei rei ml mr).1.faceMeshLandmarkList = p.faceMeshLandmarkList ∧
    (Poses.applyFaceNormal p lei rei ml mr).1.cloneablePoseLandmarks
      = p.cloneablePoseLandmarks ∧
    (Poses.applyFaceNormal p lei rei ml mr).1.cloneableInputResults
      = p.cloneableInputResults := by
  cases lei <;> cases rei <;> cases ml <;> cases mr <;>
    exact ⟨rfl, rfl, rfl, rfl, rfl, rfl, rfl, rfl, rfl, rfl⟩

theorem calcFaceNormal_preserves (p : Poses) (conns : List (List (ℕ × ℕ))) :
    (p.calcFaceNormal conns).1.poseLandmarks = p.poseLandmarks ∧
    (p.calcFaceNormal conns).1.midHipBase = p.midHipBase ∧
    (p.calcFaceNormal conns).1.firstResult = p.firstResult ∧
    (p.calcFaceNormal conns).1.inputPoseLandmarks = p.inputPoseLandmarks ∧
    (p.calcFaceNormal conns).1.faceLandmarks = p.faceLandmarks ∧
    (p.calcFaceNormal conns).1.inputFaceLandmarks = p.inputFaceLandmarks ∧
    (p.calcFaceNormal conns).1.cloneablePoseLandmarks = p.cloneablePoseLandmarks ∧
    (p.calcFaceNormal conns).1.cloneableInputResults = p.cloneableInputResults := by
  unfold Poses.calcFaceNormal
  cases hf : p.cloneableInputResults.bind CloneableResults.faceLandmarks with
  | none =>
    cases hp : p.cloneableInputResults.bind CloneableResults.poseLandmarks with
    | none => exact ⟨rfl, rfl, rfl, rfl, rfl, rfl, rfl, rfl⟩
    | some _ =>
      have h := applyFaceNormal_preserves p
        (p.poseLandmarks.get? POSE_LANDMARKS.LEFT_EYE_INNER)
        (p.poseLandmarks.get? POSE_LANDMARKS.RIGHT_EYE_INNER)
        (p.poseLandmarks.get? POSE_LANDMARKS.LEFT_RIGHT)
        (p.poseLandmarks.get? POSE_LANDMARKS.RIGHT_LEFT)
      exact ⟨h.1, h.2.1, h.2.2.1, h.2.2.2.1, h.2.2.2.2.1, h.2.2.2.2.2.1,
        h.2.2.2.2.2.2.2.2.1, h.2.2.2.2.2.2.2.2.2⟩
  | some _ =>
    cases hb : Poses.buildFaceMeshLandmarkList p.faceLandmarks (conns.map connIndices) with
    | none => simp [hb]
    | some meshLists =>
      simp only [hb]
      have h := applyFaceNormal_preserves
        { p with faceMeshLandmarkIndexList := conns.map connIndices,
                 faceMeshLandmarkList := meshLists }
        (Poses.meshKeyPoint p.faceLandmarks (conns.map connIndices) 2 8)
        (Poses.meshKeyPoint p.faceLandmarks (conns.map connIndices) 3 8)
        (Poses.meshKeyPoint p.faceLandmarks (conns.map connIndices) 6 10)
        (Poses.meshKeyPoint p.faceLandmarks (conns.map connIndices) 6 0)
      exact ⟨h.1, h.2.1, h.2.2.1, h.2.2.2.1, h.2.2.2.2.1, h.2.2.2.2.2.1,
        h.2.2.2.2.2.2.2.2.1, h.2.2.2.2.2.2.2.2.2⟩

theorem calcFaceNormal_face_absent (p : Poses) (conns : List (List (ℕ × ℕ)))
    (h : p.cloneableInputResults.bind CloneableResults.faceLandmarks = none) :
    (p.calcFaceNormal conns).1.faceMeshLandmarkIndexList = p.faceMeshLandmarkIndexList ∧
    (p.calcFaceNormal conns).1.faceMeshLandmarkList = p.faceMeshLandmarkList ∧
    (p.cloneableInputResults.bind CloneableResults.poseLandmarks = none →
      p.calcFaceNormal conns = (p, none)) := by
  unfold Poses.calcFaceNormal
  rw [h]
  cases hp : p.cloneableInputResults.bind CloneableResults.poseLandmarks with
  | none => exact ⟨rfl, rfl, fun _ => rfl⟩
  | some _ =>
    have hap := applyFaceNormal_preserves p
      (p.poseLandmarks.get? POSE_LANDMARKS.LEFT_EYE_INNER)
      (p.poseLandmarks.get? POSE_LANDMARKS.RIGHT_EYE_INNER)
      (p.poseLandmarks.get? POSE_LANDMARKS.LEFT_RIGHT)
      (p.poseLandmarks.get? POSE_LANDMARKS.RIGHT_LEFT)
    exact ⟨hap.2.2.2.2.2.2.1, hap.2.2.2.2.2.2.2.1,
      fun hc => Option.noConfusion hc⟩

theorem preProcessFace_preserves (p : Poses) (dt : ℝ) (w : Bool) :
    (Poses.preProcessFace p dt w).state.poseLandmarks = p.poseLandmarks ∧
    (Poses.preProcessFace p dt w).state.midHipBase = p.midHipBase ∧
    (Poses.preProcessFace p dt w).state.firstResult = p.firstResult ∧
    (Poses.preProcessFace p dt w).state.inputPoseLandmarks = p.inputPoseLandmarks ∧
    (Poses.preProcessFace p dt w).state.cloneableInputResults = p.cloneableInputResults ∧
    (Poses.preProcessFace p dt w).state.faceMeshLandmarkIndexList
      = p.faceMeshLandmarkIndexList ∧
    (Poses.preProcessFace p dt w).state.faceMeshLandmarkList = p.faceMeshLandmarkList ∧
    (Poses.preProcessFace p dt w).state.faceNormals = p.faceNormals ∧
    (Poses.preProcessFace p dt w).state.cloneablePoseLandmarks = p.cloneablePoseLandmarks ∧
    (Poses.preProcessFace p dt w).warned = w := by
  unfold Poses.preProcessFace
  cases hf : p.cloneableInputResults.bind CloneableResults.faceLandmarks with
  | none => exact ⟨rfl, rfl, rfl, rfl, rfl, rfl, rfl, rfl, rfl, rfl⟩
  | some flms =>
    cases he : (Poses.preProcessLandmarks flms p.faceLandmarks dt Vec3.zero).2.2 with
    | none => simp [he]
    | some e => simp [he]

theorem preProcessFace_face_absent (p : Poses) (dt : ℝ) (w : Bool)
    (h : p.cloneableInputResults.bind CloneableResults.faceLandmarks = none) :
    Poses.preProcessFace p dt w = ⟨p, w, none⟩ := by
  unfold Poses.preProcessFace
  rw [h]

theorem preProcessResults_ea_absent (p : Poses) (dt : ℝ)
    (h : p.cloneableInputResults.bind CloneableResults.ea = none) :
    p.preProcessResults dt = Poses.preProcessFace p dt false := by
  unfold Poses.preProcessResults
  rw [h]

theorem calibrateMidHip_not_first (p : Poses) (lms : List NormalizedLandmark)
    (h : p.firstResult = false) :
    Poses.calibrateMidHip p lms = Except.ok (p.midHipBase, p.firstResult) := by
  unfold Poses.calibrateMidHip
  rw [h]
  simp

theorem calibrateMidHip_qualifies (p : Poses) (lms : List NormalizedLandmark)
    (lh rh : NormalizedLandmark)
    (hfirst : p.firstResult = true)
    (hlh : lms.get? POSE_LANDMARKS.LEFT_HIP = some lh)
    (hrh : lms.get? POSE_LANDMARKS.RIGHT_HIP = some rh)
    (hlv : Poses.VISIBILITY_THRESHOLD < visOrZero lh)
    (hrv : Poses.VISIBILITY_THRESHOLD < visOrZero rh) :
    Poses.calibrateMidHip p lms =
      Except.ok (((normalizedLandmarkToVector lh).add
        (normalizedLandmarkToVector rh)).scale (1 / 2), false) := by
  unfold Poses.calibrateMidHip
  rw [hfirst, hlh, hrh]
  simp [hlv, hrv]

theorem calibrateMidHip_left_low (p : Poses) (lms : List NormalizedLandmark)
    (lh : NormalizedLandmark)
    (hfirst : p.firstResult = true)
    (hlh : lms.get? POSE_LANDMARKS.LEFT_HIP = some lh)
    (hlv : ¬ Poses.VISIBILITY_THRESHOLD < visOrZero lh) :
    Poses.calibrateMidHip p lms = Except.ok (p.midHipBase, p.firstResult) := by
  unfold Poses.calibrateMidHip
  rw [hfirst, hlh]
  simp [hlv]

theorem calibrateMidHip_right_low (p : Poses) (lms : List NormalizedLandmark)
    (lh rh : NormalizedLandmark)
    (hfirst : p.firstResult = true)
    (hlh : lms.get? POSE_LANDMARKS.LEFT_HIP = some lh)
    (hlv : Poses.VISIBILITY_THRESHOLD < visOrZero lh)
    (hrh : lms.get? POSE_LANDMARKS.RIGHT_HIP = some rh)
    (hrv : ¬ Poses.VISIBILITY_THRESHOLD < visOrZero rh) :
    Poses.calibrateMidHip p lms = Except.ok (p.midHipBase, p.firstResult) := by
  unfold Poses.calibrateMidHip
  rw [hfirst, hlh, hrh]
  simp [hlv, hrv]

theorem preProcessResults_pose_path (p : Poses) (dt : ℝ)
    (lms : List NormalizedLandmark) (c : Vec3 × Bool)
    (hea : p.cloneableInputResults.bind CloneableResults.ea = some lms)
    (hc : Poses.calibrateMidHip p lms = Except.ok c)
    (hlen : lms.length ≤ p.poseLandmarks.length) :
    p.preProcessResults dt =
      Poses.preProcessFace
        { p with
          midHipBase := c.1, firstResult := c.2,
          inputPoseLandmarks := lms.map (NormalizedLandmark.transformWith ⟨0, c.1.y, 0⟩),
          poseLandmarks := updateFilterList p.poseLandmarks
            (lms.map (NormalizedLandmark.transformWith ⟨0, c.1.y, 0⟩)) dt }
        dt (decide (lms.length ≠ POSE_LANDMARK_LENGTH)) := by
  unfold Poses.preProcessResults Poses.preProcessLandmarks
  simp only [hea, hc]
  rw [if_pos (by simpa using hlen)]

theorem preProcessFace_face_present (p : Poses) (dt : ℝ) (w : Bool)
    (flms : List NormalizedLandmark)
    (h : p.cloneableInputResults.bind CloneableResults.faceLandmarks = some flms)
    (hlen : flms.length ≤ p.faceLandmarks.length) :
    Poses.preProcessFace p dt w =
      ⟨{ p with
          inputFaceLandmarks := flms.map (NormalizedLandmark.transformWith Vec3.zero),
          faceLandmarks := updateFilterList p.faceLandmarks
            (flms.map (NormalizedLandmark.transformWith Vec3.zero)) dt },
        w, none⟩ := by
  unfold Poses.preProcessFace Poses.preProcessLandmarks
  simp only [h]
  rw [if_pos (by simpa using hlen)]

theorem preProcessResults_midHip_firstResult (p : Poses) (dt : ℝ)
    (lms : List NormalizedLandmark) (c : Vec3 × Bool)
    (hea : p.cloneableInputResults.bind CloneableResults.ea = some lms)
    (hc : Poses.calibrateMidHip p lms = Except.ok c) :
    (p.preProcessResults dt).state.midHipBase = c.1 ∧
    (p.preProcessResults dt).state.firstResult = c.2 := by
  unfold Poses.preProcessResults
  simp only [hea, hc]
  split
  · exact ⟨rfl, rfl⟩
  · have h := preProcessFace_preserves
      { p with
        midHipBase := c.1, firstResult := c.2,
        inputPoseLandmarks := (Poses.preProcessLandmarks lms
          ({ p with midHipBase := c.1, firstResult := c.2 } : Poses).poseLandmarks dt
          ⟨0, c.1.y, 0⟩).1,
        poseLandmarks := (Poses.preProcessLandmarks lms
          ({ p with midHipBase := c.1, firstResult := c.2 } : Poses).poseLandmarks dt
          ⟨0, c.1.y, 0⟩).2.1 }
      dt (decide (lms.length ≠ POSE_LANDMARK_LENGTH))
    exact ⟨h.2.1, h.2.2.1⟩

/-! ## Claim C4 -/

/-- C4: calibration happens exactly once, on the first processed frame in
which both hip landmarks report confidence above the threshold: the midpoint
of the two raw hip positions is recorded as `midHipBase` and the
`firstResult` flag is cleared, after which `midHipBase` never changes again
(frames without pose input, or with hips below threshold, change nothing;
once `firstResult` is `false` every later frame keeps the recorded value,
whatever its hip landmarks are). -/
theorem midHipBase_calibrated_once (p : Poses) (res : CloneableResults) (dt : ℝ)
    (hres : p.cloneableInputResults = some res) :
    (p.firstResult = false →
      (p.preProcessResults dt).state.midHipBase = p.midHipBase ∧
      (p.preProcessResults dt).state.firstResult = false) ∧
    (∀ lms lh rh, res.ea = some lms →
      lms.get? POSE_LANDMARKS.LEFT_HIP = some lh →
      lms.get? POSE_LANDMARKS.RIGHT_HIP = some rh →
      Poses.VISIBILITY_THRESHOLD < visOrZero lh →
      Poses.VISIBILITY_THRESHOLD < visOrZero rh →
      (p.preProcessResults dt).state.midHipBase =
        (if p.firstResult then
          ((normalizedLandmarkToVector lh).add (normalizedLandmarkToVector rh)).scale (1 / 2)
        else p.midHipBase) ∧
      (p.preProcessResults dt).state.firstResult = false) ∧
    (∀ lms lh, p.firstResult = true → res.ea = some lms →
      lms.get? POSE_LANDMARKS.LEFT_HIP = some lh →
      ¬ Poses.VISIBILITY_THRESHOLD < visOrZero lh →
      (p.preProcessResults dt).state.midHipBase = p.midHipBase ∧
      (p.preProcessResults dt).state.firstResult = true) ∧
    (∀ lms lh rh, p.firstResult = true → res.ea = some lms →
      lms.get? POSE_LANDMARKS.LEFT_HIP = some lh →
      Poses.VISIBILITY_THRESHOLD < visOrZero lh →
      lms.get? POSE_LANDMARKS.RIGHT_HIP = some rh →
      ¬ Poses.VISIBILITY_THRESHOLD < visOrZero rh →
      (p.preProcessResults dt).state.midHipBase = p.midHipBase ∧
      (p.preProcessResults dt).state.firstResult = true) ∧
    (res.ea = none →
      (p.preProcessResults dt).state.midHipBase = p.midHipBase ∧
      (p.preProcessResults dt).state.firstResult = p.firstResult) := by
  have hbind : ∀ lms, res.ea = some lms →
      p.cloneableInputResults.bind CloneableResults.ea = some lms := by
    intro lms h
    rw [hres]
    simpa using h
  refine ⟨?_, ?_, ?_, ?_, ?_⟩
  · intro hfirst
    cases hea : res.ea with
    | none =>
      have h0 : p.cloneableInputResults.bind CloneableResults.ea = none := by
        rw [hres]
        simpa using hea
      rw [preProcessResults_ea_absent p dt h0]
      have h := preProcessFace_preserves p dt false
      exact ⟨h.2.1, h.2.2.1.trans hfirst⟩
    | some lms =>
      have h := preProcessResults_midHip_firstResult p dt lms _ (hbind lms hea)
        (calibrateMidHip_not_first p lms hfirst)
      exact ⟨h.1, h.2.trans hfirst⟩
  · intro lms lh rh hea hlh hrh hlv hrv
    cases hfr : p.firstResult with
    | true =>
      have h := preProcessResults_midHip_firstResult p dt lms _ (hbind lms hea)
        (calibrateMidHip_qualifies p lms lh rh hfr hlh hrh hlv hrv)
      rw [if_pos (rfl : true = true)]
      exact ⟨h.1, h.2⟩
    | false =>
      have h := preProcessResults_midHip_firstResult p dt lms _ (hbind lms hea)
        (calibrateMidHip_not_first p lms hfr)
      rw [if_neg Bool.false_ne_true]
      exact ⟨h.1, h.2.trans hfr⟩
  · intro lms lh hfr hea hlh hlv
    have h := preProcessResults_midHip_firstResult p dt lms _ (hbind lms hea)
      (calibrateMidHip_left_low p lms lh hfr hlh hlv)
    exact ⟨h.1, h.2.trans hfr⟩
  · intro lms lh rh hfr hea hlh hlv hrh hrv
    have h := preProcessResults_midHip_firstResult p dt lms _ (hbind lms hea)
      (calibrateMidHip_right_low p lms lh rh hfr hlh hlv hrh hrv)
    exact ⟨h.1, h.2.trans hfr⟩
  · intro hea
    have h0 : p.cloneableInputResults.bind CloneableResults.ea = none := by
      rw [hres]
      simpa using hea
    rw [preProcessResults_ea_absent p dt h0]
    have h := preProcessFace_preserves p dt false
    exact ⟨h.2.1, h.2.2.1⟩

/-- Witness for C4: a fresh processor receiving a full-length pose list
whose hips have confidence 0.7 records the hip midpoint and clears the
first-result flag. -/
theorem midHipBase_calibrated_once_witness :
    Poses.VISIBILITY_THRESHOLD < visOrZero lmW ∧
    (posesCalib.preProcessResults 0).state.midHipBase =
      ((normalizedLandmarkToVector lmW).add (normalizedLandmarkToVector lmW)).scale (1 / 2) ∧
    (posesCalib.preProcessResults 0).state.firstResult = false := by
  have h := (midHipBase_calibrated_once posesCalib resCalib 0 rfl).2.1
    (List.replicate POSE_LANDMARK_LENGTH lmW) lmW lmW rfl rfl rfl (by decide) (by decide)
  exact ⟨by decide,
    by rw [h.1, if_pos (show posesCalib.firstResult = true from rfl)], h.2⟩

/-! ## Claim C6 -/

/-- C6: the per-frame coordinate transform maps every input landmark
`(x, y, z)` to `(x + offset.x, −y + offset.y, z + offset.z)` — flipping the
vertical axis and adding the calibrated offset — where the offset is
`(0, midHipBase.y, 0)` for the body-pose set and the zero vector for the
face set (visibility is carried through unchanged). -/
theorem preProcess_transform_formula (p : Poses) (res : CloneableResults) (dt : ℝ)
    (lms flms : List NormalizedLandmark)
    (hres : p.cloneableInputResults = some res)
    (hfirst : p.firstResult = false)
    (hea : res.ea = some lms)
    (hlen : lms.length ≤ p.poseLandmarks.length)
    (hface : res.faceLandmarks = some flms)
    (hflen : flms.length ≤ p.faceLandmarks.length) :
    (p.preProcessResults dt).state.inputPoseLandmarks =
      lms.map (fun l => ⟨l.x + 0, -l.y + p.midHipBase.y, l.z + 0, l.visibility⟩) ∧
    (p.preProcessResults dt).state.inputFaceLandmarks =
      flms.map (fun l => ⟨l.x + 0, -l.y + 0, l.z + 0, l.visibility⟩) := by
  have hbea : p.cloneableInputResults.bind CloneableResults.ea = some lms := by
    rw [hres]
    simpa using hea
  rw [preProcessResults_pose_path p dt lms (p.midHipBase, p.firstResult) hbea
    (calibrateMidHip_not_first p lms hfirst) hlen]
  rw [preProcessFace_face_present
    { p with
      midHipBase := (p.midHipBase, p.firstResult).1,
      firstResult := (p.midHipBase, p.firstResult).2,
      inputPoseLandmarks := lms.map (NormalizedLandmark.transformWith
        ⟨0, (p.midHipBase, p.firstResult).1.y, 0⟩),
      poseLandmarks := updateFilterList p.poseLandmarks
        (lms.map (NormalizedLandmark.transformWith
          ⟨0, (p.midHipBase, p.firstResult).1.y, 0⟩)) dt }
    dt (decide (lms.length ≠ POSE_LANDMARK_LENGTH)) flms
    (show p.cloneableInputResults.bind CloneableResults.faceLandmarks = some flms by
      rw [hres]
      simpa using hface)
    hflen]
  exact ⟨rfl, rfl⟩

/-- Witness for C6: one pose landmark `(1, 2, 3)` and one face landmark
`(4, 5, 6)` fed to an already-calibrated processor. -/
theorem preProcess_transform_formula_witness :
    (posesTrans.preProcessResults 0).state.inputPoseLandmarks =
      [⟨(1 : ℝ) + 0, -(2 : ℝ) + posesTrans.midHipBase.y, (3 : ℝ) + 0, some (mkRat 7 10)⟩] ∧
    (posesTrans.preProcessResults 0).state.inputFaceLandmarks =
      [⟨(4 : ℝ) + 0, -(5 : ℝ) + 0, (6 : ℝ) + 0, none⟩] := by
  have h := preProcess_transform_formula posesTrans resTrans 0
    [⟨1, 2, 3, some (mkRat 7 10)⟩] [⟨4, 5, 6, none⟩]
    rfl rfl rfl (by norm_num [posesTrans, Poses.init, POSE_LANDMARK_LENGTH]) rfl
    (by norm_num [posesTrans, Poses.init, FACE_LANDMARK_LENGTH])
  exact ⟨h.1.trans rfl, h.2.trans rfl⟩

/-! ## Claim C9 -/

/-- C9 (amended): a wrong-length pose landmark list is neither rejected with
an explicit error nor safely ignored: the source logs a `console.warn` and
then processes the list anyway, updating the filters at every present index
(the filter time counter advances, here shown for index 0), so the filter
state is touched while no error is raised.  (Separately, a pose list too
short to contain the hip indices while calibration is still pending makes
the call abort with an uncaught `TypeError` rather than a documented
rejection.) -/
theorem wrongLength_pose_list_logged_and_processed (p : Poses) (res : CloneableResults)
    (dt : ℝ) (f0 : FilteredVectorLandmark) (fs : List FilteredVectorLandmark)
    (l0 : NormalizedLandmark) (ls : List NormalizedLandmark)
    (hres : p.cloneableInputResults = some res)
    (hfirst : p.firstResult = false)
    (hea : res.ea = some (l0 :: ls))
    (hpose : p.poseLandmarks = f0 :: fs)
    (hmode : f0.tIncrementMode = LandmarkTimeIncrementMode.Universal)
    (hlen : (l0 :: ls).length ≠ POSE_LANDMARK_LENGTH)
    (hle : (l0 :: ls).length ≤ p.poseLandmarks.length)
    (hface : res.faceLandmarks = none) :
    (p.preProcessResults dt).warned = true ∧
    (p.preProcessResults dt).error = none ∧
    ((p.preProcessResults dt).state.poseLandmarks.get? 0).map FilteredVectorLandmark.t =
      some (f0.t + 1) := by
  have hbea : p.cloneableInputResults.bind CloneableResults.ea = some (l0 :: ls) := by
    rw [hres]
    simpa using hea
  rw [preProcessResults_pose_path p dt (l0 :: ls) (p.midHipBase, p.firstResult) hbea
    (calibrateMidHip_not_first p (l0 :: ls) hfirst) hle]
  rw [preProcessFace_face_absent _ dt _ (by simpa [hres] using hface)]
  refine ⟨by simpa using hlen, rfl, ?_⟩
  rw [hpose]
  simp only [List.map_cons, updateFilterList, List.get?, Option.map_some']
  rw [updatePosition_t_advance, hmode]

/-- Witness for C9: the 26-entry pose list fed to an already-calibrated
processor. -/
theorem wrongLength_pose_list_logged_and_processed_witness :
    lms26.length ≠ POSE_LANDMARK_LENGTH ∧
    (posesWrong.preProcessResults 0).warned = true ∧
    (posesWrong.preProcessResults 0).error = none ∧
    ((posesWrong.preProcessResults 0).state.poseLandmarks.get? 0).map
        FilteredVectorLandmark.t =
      some ((FilteredVectorLandmark.init (mkRat 1 100) 2 (mkRat 7 1000)).t + 1) := by
  have h := wrongLength_pose_list_logged_and_processed posesWrong resWrong 0
    (FilteredVectorLandmark.init (mkRat 1 100) 2 (mkRat 7 1000))
    (List.replicate 32 (FilteredVectorLandmark.init (mkRat 1 100) 2 (mkRat 7 1000)))
    lmW (List.replicate 25 lmW)
    rfl rfl rfl rfl rfl (by decide)
    (by norm_num [posesWrong, Poses.init, lms26, POSE_LANDMARK_LENGTH]) rfl
  exact ⟨by decide, h.1, h.2.1, h.2.2⟩

/-- Counterexample for C9 as stated: on the 26-entry list the call neither
raises an explicit error nor leaves the filter state untouched — it warns
and processes, advancing the first filter's time counter from 0 to 1. -/
theorem wrongLength_neither_rejected_nor_untouched :
    lms26.length ≠ POSE_LANDMARK_LENGTH ∧
    (posesWrong.preProcessResults 0).error = none ∧
    ((posesWrong.preProcessResults 0).state.poseLandmarks.get? 0).map
        FilteredVectorLandmark.t ≠
      (posesWrong.poseLandmarks.get? 0).map FilteredVectorLandmark.t := by
  have hbea : posesWrong.cloneableInputResults.bind CloneableResults.ea = some lms26 := rfl
  rw [preProcessResults_pose_path posesWrong 0 lms26
    (posesWrong.midHipBase, posesWrong.firstResult) hbea
    (calibrateMidHip_not_first posesWrong lms26 rfl)
    (by norm_num [posesWrong, Poses.init, lms26, POSE_LANDMARK_LENGTH])]
  rw [preProcessFace_face_absent
    { posesWrong with
      midHipBase := (posesWrong.midHipBase, posesWrong.firstResult).1,
      firstResult := (posesWrong.midHipBase, posesWrong.firstResult).2,
      inputPoseLandmarks := lms26.map (NormalizedLandmark.transformWith
        ⟨0, (posesWrong.midHipBase, posesWrong.firstResult).1.y, 0⟩),
      poseLandmarks := updateFilterList posesWrong.poseLandmarks
        (lms26.map (NormalizedLandmark.transformWith
          ⟨0, (posesWrong.midHipBase, posesWrong.firstResult).1.y, 0⟩)) 0 }
    0 (decide (lms26.length ≠ POSE_LANDMARK_LENGTH)) rfl]
  refine ⟨by decide, rfl, ?_⟩
  show ((updateFilterList posesWrong.poseLandmarks
      (lms26.map (NormalizedLandmark.transformWith
        ⟨0, (posesWrong.midHipBase, posesWrong.firstResult).1.y, 0⟩)) 0).get? 0).map
      FilteredVectorLandmark.t ≠
    (posesWrong.poseLandmarks.get? 0).map FilteredVectorLandmark.t
  have h1 : posesWrong.poseLandmarks =
      FilteredVectorLandmark.init (mkRat 1 100) 2 (mkRat 7 1000) ::
        List.replicate 32 (FilteredVectorLandmark.init (mkRat 1 100) 2 (mkRat 7 1000)) := rfl
  have h2 : lms26 = lmW :: List.replicate 25 lmW := rfl
  rw [h1, h2]
  simp only [List.map_cons, updateFilterList, List.get?, Option.map_some']
  rw [updatePosition_t_advance]
  intro hcontra
  have ht : (FilteredVectorLandmark.init (mkRat 1 100) 2 (mkRat 7 1000)).t + 1 =
      (FilteredVectorLandmark.init (mkRat 1 100) 2 (mkRat 7 1000)).t :=
    Option.some.inj hcontra
  have : (0 : ℝ) + 1 = 0 := ht
  norm_num at this

theorem preProcessFace_face_absent_fields (q : Poses) (dt : ℝ) (w : Bool)
    (h : q.cloneableInputResults.bind CloneableResults.faceLandmarks = none) :
    (Poses.preProcessFace q dt w).state.faceLandmarks = q.faceLandmarks ∧
    (Poses.preProcessFace q dt w).state.inputFaceLandmarks = q.inputFaceLandmarks ∧
    (Poses.preProcessFace q dt w).error = none := by
  rw [preProcessFace_face_absent q dt w h]
  exact ⟨rfl, rfl, rfl⟩

theorem preProcessResults_face_fields (p : Poses) (dt : ℝ)
    (h : p.cloneableInputResults.bind CloneableResults.faceLandmarks = none) :
    (p.preProcessResults dt).state.faceLandmarks = p.faceLandmarks ∧
    (p.preProcessResults dt).state.inputFaceLandmarks = p.inputFaceLandmarks ∧
    (p.preProcessResults dt).state.faceMeshLandmarkIndexList = p.faceMeshLandmarkIndexList ∧
    (p.preProcessResults dt).state.faceMeshLandmarkList = p.faceMeshLandmarkList ∧
    (p.preProcessResults dt).state.faceNormals = p.faceNormals ∧
    (p.preProcessResults dt).state.cloneableInputResults = p.cloneableInputResults := by
  unfold Poses.preProcessResults
  cases hea : p.cloneableInputResults.bind CloneableResults.ea with
  | none =>
    have hffa := preProcessFace_face_absent_fields p dt false h
    have hfp := preProcessFace_preserves p dt false
    exact ⟨hffa.1, hffa.2.1, hfp.2.2.2.2.2.1, hfp.2.2.2.2.2.2.1,
      hfp.2.2.2.2.2.2.2.1, hfp.2.2.2.2.1⟩
  | some lms =>
    cases hc : Poses.calibrateMidHip p lms with
    | error e =>
      simp [hc]
    | ok c =>
      simp only [hc]
      split
      · exact ⟨rfl, rfl, rfl, rfl, rfl, rfl⟩
      · exact ⟨(preProcessFace_face_absent_fields _ dt _ (by exact h)).1,
          (preProcessFace_face_absent_fields _ dt _ (by exact h)).2.1,
          (preProcessFace_preserves _ dt _).2.2.2.2.2.1,
          (preProcessFace_preserves _ dt _).2.2.2.2.2.2.1,
          (preProcessFace_preserves _ dt _).2.2.2.2.2.2.2.1,
          (preProcessFace_preserves _ dt _).2.2.2.2.1⟩

theorem preProcessResults_pose_fields (p : Poses) (dt : ℝ)
    (h : p.cloneableInputResults.bind CloneableResults.ea = none) :
    (p.preProcessResults dt).state.poseLandmarks = p.poseLandmarks ∧
    (p.preProcessResults dt).state.inputPoseLandmarks = p.inputPoseLandmarks ∧
    (p.preProcessResults dt).state.midHipBase = p.midHipBase ∧
    (p.preProcessResults dt).state.firstResult = p.firstResult ∧
    (p.preProcessResults dt).state.cloneableInputResults = p.cloneableInputResults := by
  rw [preProcessResults_ea_absent p dt h]
  have hfp := preProcessFace_preserves p dt false
  exact ⟨hfp.1, hfp.2.2.2.1, hfp.2.1, hfp.2.2.1, hfp.2.2.2.2.1⟩

/-! ## Claim C7 -/

/-- C7: a landmark set absent from the input of a `process` call leaves
every filtered landmark of that set — and hence its position, confidence
and internal filter state — exactly unchanged, and the computations
depending on that set are skipped: an absent face set keeps the face filter
list, its transformed-input buffer and the face-mesh sub-region outputs
untouched, an absent pose set keeps the pose filter list, its
transformed-input buffer and the calibration state untouched, and when no
set is present at all the orientation normal is not recomputed either. -/
theorem process_absent_set_keeps_state (p : Poses) (res : CloneableResults)
    (conns : List (List (ℕ × ℕ))) (dt : ℝ) :
    (res.faceLandmarks = none →
      (p.process res conns dt).state.faceLandmarks = p.faceLandmarks ∧
      (p.process res conns dt).state.inputFaceLandmarks = p.inputFaceLandmarks ∧
      (p.process res conns dt).state.faceMeshLandmarkIndexList
        = p.faceMeshLandmarkIndexList ∧
      (p.process res conns dt).state.faceMeshLandmarkList = p.faceMeshLandmarkList) ∧
    (res.ea = none →
      (p.process res conns dt).state.poseLandmarks = p.poseLandmarks ∧
      (p.process res conns dt).state.inputPoseLandmarks = p.inputPoseLandmarks ∧
      (p.process res conns dt).state.midHipBase = p.midHipBase ∧
      (p.process res conns dt).state.firstResult = p.firstResult) ∧
    (res.faceLandmarks = none → res.poseLandmarks = none → res.ea = none →
      (p.process res conns dt).state.faceNormals = p.faceNormals) := by
  simp only [Poses.process]
  refine ⟨?_, ?_, ?_⟩
  · intro hface
    have hb : ({ p with cloneableInputResults := some res } :
        Poses).cloneableInputResults.bind CloneableResults.faceLandmarks = none := by
      simp [hface]
    have h1 := preProcessResults_face_fields
      { p with cloneableInputResults := some res } dt hb
    cases herr : (({ p with cloneableInputResults := some res } :
        Poses).preProcessResults dt).error with
    | some e =>
      simp only [herr]
      exact ⟨h1.1, h1.2.1, h1.2.2.1, h1.2.2.2.1⟩
    | none =>
      simp only [herr]
      have hb2 : (({ p with cloneableInputResults := some res } :
          Poses).preProcessResults dt).state.cloneableInputResults.bind
            CloneableResults.faceLandmarks = none := by
        rw [h1.2.2.2.2.2]
        exact hb
      have h2 := calcFaceNormal_face_absent _ conns hb2
      have h3 := calcFaceNormal_preserves
        (({ p with cloneableInputResults := some res } :
          Poses).preProcessResults dt).state conns
      cases hc2 : ((({ p with cloneableInputResults := some res } :
          Poses).preProcessResults dt).state.calcFaceNormal conns).2 with
      | some e =>
        simp only [hc2]
        exact ⟨h3.2.2.2.2.1.trans h1.1, h3.2.2.2.2.2.1.trans h1.2.1,
          h2.1.trans h1.2.2.1, h2.2.1.trans h1.2.2.2.1⟩
      | none =>
        simp only [hc2]
        exact ⟨h3.2.2.2.2.1.trans h1.1, h3.2.2.2.2.2.1.trans h1.2.1,
          h2.1.trans h1.2.2.1, h2.2.1.trans h1.2.2.2.1⟩
  · intro heap
    have hbea : ({ p with cloneableInputResults := some res } :
        Poses).cloneableInputResults.bind CloneableResults.ea = none := by
      simp [heap]
    have h1 := preProcessResults_pose_fields
      { p with cloneableInputResults := some res } dt hbea
    cases herr : (({ p with cloneableInputResults := some res } :
        Poses).preProcessResults dt).error with
    | some e =>
      simp only [herr]
      exact ⟨h1.1, h1.2.1, h1.2.2.1, h1.2.2.2.1⟩
    | none =>
      simp only [herr]
      have h3 := calcFaceNormal_preserves
        (({ p with cloneableInputResults := some res } :
          Poses).preProcessResults dt).state conns
      cases hc2 : ((({ p with cloneableInputResults := some res } :
          Poses).preProcessResults dt).state.calcFaceNormal conns).2 with
      | some e =>
        simp only [hc2]
        exact ⟨h3.1.trans h1.1, h3.2.2.2.1.trans h1.2.1,
          h3.2.1.trans h1.2.2.1, h3.2.2.1.trans h1.2.2.2.1⟩
      | none =>
        simp only [hc2]
        exact ⟨h3.1.trans h1.1, h3.2.2.2.1.trans h1.2.1,
          h3.2.1.trans h1.2.2.1, h3.2.2.1.trans h1.2.2.2.1⟩
  · intro hface hpose heap
    have hbea : ({ p with cloneableInputResults := some res } :
        Poses).cloneableInputResults.bind CloneableResults.ea = none := by
      simp [heap]
    have hb : ({ p with cloneableInputResults := some res } :
        Poses).cloneableInputResults.bind CloneableResults.faceLandmarks = none := by
      simp [hface]
    have hbp : ({ p with cloneableInputResults := some res } :
        Poses).cloneableInputResults.bind CloneableResults.poseLandmarks = none := by
      simp [hpose]
    rw [preProcessResults_ea_absent _ dt hbea,
      preProcessFace_face_absent _ dt false hb]
    simp only []
    rw [(calcFaceNormal_face_absent _ conns hb).2.2 hbp]
    rfl

/-- Witness for C7: a frame with both landmark sets absent leaves the face
filters, pose filters and orientation output of a fresh processor exactly
unchanged. -/
theorem process_absent_set_keeps_state_witness :
    resEmpty.faceLandmarks = none ∧ resEmpty.ea = none ∧
    (Poses.init.process resEmpty [] 0).state.faceLandmarks = Poses.init.faceLandmarks ∧
    (Poses.init.process resEmpty [] 0).state.poseLandmarks = Poses.init.poseLandmarks ∧
    (Poses.init.process resEmpty [] 0).state.faceNormals = Poses.init.faceNormals := by
  have h := process_absent_set_keeps_state Poses.init resEmpty [] 0
  exact ⟨rfl, rfl, (h.1 rfl).1, (h.2.1 rfl).1, h.2.2 rfl rfl rfl⟩

end
